import Mathlib

/-!
Shallow embedding of `HighLevelAnalyzer.py` from the LG PQRCUDS0 serial-bus
analyzer extension: a stream decoder that groups byte events into 6-byte
packets, validates an additive XOR-masked checksum, classifies the packet
source from inter-packet timing, and decodes the payload bit fields.

Timestamps (the saleae GraphTime / GraphTimeDelta values) are modelled as
rationals measured in seconds.  Python dictionaries are modelled as ordered
association lists with insert-or-update semantics (a fresh key is appended,
an existing key is updated in place), matching dict insertion order.  A
Python statement that can raise an uncaught exception (the `_FAN_SPEED[...]`
subscript) is modelled with `Option`: `none` is an uncaught error that
aborts the current `decode` call.
-/

namespace LGPQRCUDS

/-- A timestamp or duration in seconds (models GraphTime / GraphTimeDelta). -/
abbrev GTime := ℚ

/-- One buffered byte event: a byte value with its start and end timestamps
(models an input AnalyzerFrame of type data, keeping only what the source
reads from it). -/
structure ByteFrame where
  value : Nat
  start_time : GTime
  end_time : GTime
  deriving DecidableEq, Repr

/-- An input frame as received by `Hla.decode`: a frame type tag plus the
byte payload and timestamps. -/
structure InputFrame where
  type : String
  value : Nat
  start_time : GTime
  end_time : GTime
  deriving DecidableEq, Repr

/-- A value stored in a packet-attributes dictionary. -/
inductive AttrValue where
  | str (s : String)
  | bool (b : Bool)
  | nat (n : Nat)
  | rat (q : ℚ)
  | bytes (bs : List Nat)
  deriving DecidableEq, Repr

/-- A Python dict with string keys, as an ordered association list. -/
abbrev Dict := List (String × AttrValue)

/-- Python `d[k] = v`: update an existing key in place, else append. -/
def dictSet : Dict → String → AttrValue → Dict
  | [], k, v => [(k, v)]
  | (k', v') :: rest, k, v =>
      if k' = k then (k, v) :: rest else (k', v') :: dictSet rest k v

/-- Python `d.get(k)` style lookup on the association list. -/
def dictLookup : Dict → String → Option AttrValue
  | [], _ => none
  | (k', v') :: rest, k => if k' = k then some v' else dictLookup rest k

/-- Python `k in d`. -/
def dictContains (d : Dict) (k : String) : Bool :=
  (dictLookup d k).isSome

/-- An output AnalyzerFrame as constructed by `recompose_packet`. -/
structure AnalyzerFrame where
  type : String
  start_time : GTime
  end_time : GTime
  data : Dict
  deriving DecidableEq, Repr

/-- Source line 13: `_PACKETS_DISTANCE = GraphTimeDelta(1)` (one second). -/
def _PACKETS_DISTANCE : GTime := 1

/-- Source lines 16-17:
`(functools.reduce(operator.add, packet) & 0xFF) ^ 0x55` (in Python `&`
binds tighter than `^`). -/
def _checksum (packet : List Nat) : Nat :=
  (packet.sum &&& 0xFF) ^^^ 0x55

/-- Source lines 20-25: the `_FAN_SPEED` dict; a plain subscript raises
KeyError on a missing key, hence `Option`. -/
def _FAN_SPEED (v : Nat) : Option String :=
  if v = 0x00 then some "low"
  else if v = 0x10 then some "medium"
  else if v = 0x20 then some "high"
  else if v = 0x40 then some "power"
  else none

/-- Source lines 27-32: the `_MODE` dict (accessed only through `.get`). -/
def _MODE (v : Nat) : Option String :=
  if v = 0x00 then some "Cool"
  else if v = 0x10 then some "dH"
  else if v = 0x20 then some "Fan"
  else if v = 0x40 then some "Heat"
  else none

/-- Python `hex(n)` for a nonnegative int: `0x` followed by lowercase hex
digits. -/
def pythonHex (n : Nat) : String :=
  "0x" ++ (Nat.toDigits 16 n).asString

/-- One byte of Python `bytes.hex()`: exactly two lowercase hex digits. -/
def byteHex (b : Nat) : String :=
  (if b < 16 then "0" else "") ++ (Nat.toDigits 16 b).asString

/-- Python `bytes.hex()` over a byte string. -/
def bytesHex (bs : List Nat) : String :=
  String.join (bs.map byteHex)

/-- Python `a & ~m` for nonnegative `a`: clear in `a` every bit set in `m`.
Bitwise, `a AND (NOT m)` equals `a XOR (a AND m)`. -/
def andNot (a m : Nat) : Nat :=
  a ^^^ (a &&& m)

/-- Source lines 35-49: `annotate_hvac_packet`.  Sets `source` to `HVAC`;
derives `room_temperature = p[1]/2 + 10` when bit 7 of `p[1]` is clear; then
stores the residual `unknown_data`, zeroing byte 1 exactly when a room
temperature was just derived. -/
def annotate_hvac_packet (packet_data : List Nat) (packet_attributes : Dict) :
    Dict :=
  let a0 := dictSet packet_attributes "source" (.str "HVAC")
  let a1 :=
    if packet_data.getD 1 0 &&& 0x80 = 0 then
      dictSet a0 "room_temperature"
        (.rat ((packet_data.getD 1 0 : ℚ) / 2 + 10))
    else a0
  dictSet a1 "unknown_data"
    (.bytes
      [packet_data.getD 0 0,
       if dictContains a1 "room_temperature" then 0 else packet_data.getD 1 0,
       packet_data.getD 2 0,
       packet_data.getD 3 0,
       packet_data.getD 4 0])

/-- Source lines 52-93: `annotate_panel_packet`.  Sets `source` to `Panel`.
If `p[0] & 0x90 == 0x90` it is a features inquiry; the source then compares
the three-byte slice `packet_data[1:4]` against the FOUR-byte literal
`b"\x00\x00\x00\x00"`, which is modelled verbatim.  Otherwise it decodes the
status fields; `_FAN_SPEED[p[2] & 0x70]` is a raising subscript, so the
whole call returns `none` (KeyError) when the fan-speed code is unknown. -/
def annotate_panel_packet (packet_data : List Nat)
    (packet_attributes : Dict) : Option Dict :=
  let a0 := dictSet packet_attributes "source" (.str "Panel")
  if packet_data.getD 0 0 &&& 0x90 = 0x90 then
    let a1 := dictSet a0 "features_inquiry" (.bool true)
    if (packet_data.drop 1).take 3 ≠ [0x00, 0x00, 0x00, 0x00] then
      some (dictSet a1 "unknown_data"
        (.bytes (0x00 :: (packet_data.drop 1).take 3)))
    else
      some a1
  else
    let mode_val := packet_data.getD 0 0 &&& 0x70
    let a1 := dictSet a0 "mode" (.str ((_MODE mode_val).getD (pythonHex mode_val)))
    let a2 := dictSet a1 "resistor?" (.bool (packet_data.getD 0 0 &&& 0x08 != 0))
    let a3 := dictSet a2 "running" (.bool (packet_data.getD 0 0 &&& 0x04 != 0))
    let a4 := dictSet a3 "settings_changed"
      (.bool (packet_data.getD 0 0 &&& 0x01 != 0))
    let a5 := dictSet a4 "room_temperature"
      (.rat ((packet_data.getD 1 0 : ℚ) / 2 + 10))
    let a6 := dictSet a5 "plasma" (.bool (packet_data.getD 2 0 &&& 0x80 != 0))
    match _FAN_SPEED (packet_data.getD 2 0 &&& 0x70) with
    | none => none
    | some fs =>
      let a7 := dictSet a6 "fan_speed" (.str fs)
      let a8 := dictSet a7 "set_temperature"
        (.str (Nat.repr ((packet_data.getD 2 0 &&& 0x0F) + 16)))
      let a9 := dictSet a8 "swivel" (.bool (packet_data.getD 3 0 &&& 0x20 != 0))
      let a10 := dictSet a9 "swirl" (.bool (packet_data.getD 4 0 &&& 0x01 != 0))
      some (dictSet a10 "unknown_data"
        (.bytes
          [packet_data.getD 0 0 &&& 0x02,
           0,
           0,
           andNot (packet_data.getD 3 0) 0x20,
           andNot (packet_data.getD 4 0) 0x01]))

/-- Default used to totalize positional accesses that the source performs
only on six-element buffers. -/
def defFrame : ByteFrame := ⟨0, 0, 0⟩

/-- Source lines 96-136: `recompose_packet`.  Concatenates the buffered byte
values, compares the trailing byte against `_checksum` of the rest; on
mismatch returns the invalid-checksum frame over the full packet hex; on
match computes the distance from `last_end` (defaulting to 30 seconds when
absent) and annotates through the HVAC decoder when the distance is below
300 ms, else through the panel decoder (which may raise, hence `none`). -/
def recompose_packet (packet_frames : List ByteFrame)
    (last_end : Option GTime) : Option AnalyzerFrame :=
  let packet_data := packet_frames.map ByteFrame.value
  let received_checksum := packet_data.getLastD 0
  let calculated_checksum := _checksum packet_data.dropLast
  if received_checksum ≠ calculated_checksum then
    some ⟨"invalid_checksum",
          (packet_frames.headD defFrame).start_time,
          (packet_frames.getLastD defFrame).end_time,
          [("data", AttrValue.str (bytesHex packet_data))]⟩
  else
    let packet_attributes : Dict :=
      [("data", AttrValue.str (bytesHex packet_data.dropLast)),
       ("checksum", AttrValue.nat received_checksum)]
    let packet_distance : GTime :=
      match last_end with
      | some t => (packet_frames.headD defFrame).start_time - t
      | none => 30
    if packet_distance < 300 / 1000 then
      some ⟨"valid_packet",
            (packet_frames.headD defFrame).start_time,
            (packet_frames.getLastD defFrame).end_time,
            annotate_hvac_packet packet_data packet_attributes⟩
    else
      (annotate_panel_packet packet_data packet_attributes).map
        (fun a =>
          ⟨"valid_packet",
           (packet_frames.headD defFrame).start_time,
           (packet_frames.getLastD defFrame).end_time,
           a⟩)

/-- Abbreviation for the initial attribute dict that `recompose_packet`
builds on lines 114-117 before annotating a valid packet. -/
def initAttrs (packet_data : List Nat) : Dict :=
  [("data", AttrValue.str (bytesHex packet_data.dropLast)),
   ("checksum", AttrValue.nat (packet_data.getLastD 0))]

/-- The classification distance of source lines 119-123: the distance from
the anchor to the packet's first byte, defaulting to 30 seconds when no
anchor exists. -/
def classifier_gap (packet_frames : List ByteFrame)
    (last_end : Option GTime) : GTime :=
  match last_end with
  | some t => (packet_frames.headD defFrame).start_time - t
  | none => 30

/-- The mutable state of the `Hla` analyzer instance: the classification
anchor `_last_end` and the byte buffer `_packet`. -/
structure HlaState where
  last_end : Option GTime
  packet : List ByteFrame
  deriving DecidableEq, Repr

/-- The state of a freshly constructed `Hla` instance. -/
def initState : HlaState := ⟨none, []⟩

/-- Source lines 157-175: `Hla.decode`.  Non-data frames are ignored; a gap
above `_PACKETS_DISTANCE` between the incoming frame's end time and the last
buffered frame's end time clears the buffer; the frame is appended; a full
six-byte buffer is recomposed (which can raise, hence the outer `Option`),
the buffer cleared, and `_last_end` advanced to the emitted frame's end
time.  The result pairs the successor state with the returned frame, if
any. -/
def Hla.decode (s : HlaState) (frame : InputFrame) :
    Option (HlaState × Option AnalyzerFrame) :=
  if frame.type ≠ "data" then some (s, none)
  else
    let buf0 :=
      if s.packet ≠ [] ∧
          frame.end_time - (s.packet.getLastD defFrame).end_time >
            _PACKETS_DISTANCE then
        ([] : List ByteFrame)
      else s.packet
    let buf := buf0 ++ [⟨frame.value, frame.start_time, frame.end_time⟩]
    if buf.length = 6 then
      match recompose_packet buf s.last_end with
      | none => none
      | some analyzed_frame =>
          some (⟨some analyzed_frame.end_time, []⟩, some analyzed_frame)
    else
      some (⟨s.last_end, buf⟩, none)

/-- Feed a list of input frames through `Hla.decode`, threading the state
and collecting the emitted frames; `none` when some call raised. -/
def runStream (s : HlaState) : List InputFrame →
    Option (HlaState × List AnalyzerFrame)
  | [] => some (s, [])
  | f :: fs =>
    match Hla.decode s f with
    | none => none
    | some (s', out) =>
      match runStream s' fs with
      | none => none
      | some (s'', outs) => some (s'', out.toList ++ outs)

/-! ### Concrete example packets used as witnesses and counterexamples -/

/-- Six zero-width byte events carrying `00 00 30 00 00 65`: a packet with a
correct checksum whose fan-speed code `0x30` is absent from `_FAN_SPEED`. -/
def pktFanUnknown : List ByteFrame :=
  [⟨0x00, 0, 0⟩, ⟨0x00, 0, 0⟩, ⟨0x30, 0, 0⟩, ⟨0x00, 0, 0⟩, ⟨0x00, 0, 0⟩,
   ⟨0x65, 0, 0⟩]

/-- The same packet as a stream of input frames, one second apart. -/
def streamFanUnknown : List InputFrame :=
  [⟨"data", 0x00, 0, 0⟩, ⟨"data", 0x00, 1, 1⟩, ⟨"data", 0x30, 2, 2⟩,
   ⟨"data", 0x00, 3, 3⟩, ⟨"data", 0x00, 4, 4⟩, ⟨"data", 0x65, 5, 5⟩]

/-- Byte events carrying `10 28 25 00 00 08`: the valid panel status packet
of the protocol notes (mode dH, fan high, set temperature 21). -/
def pktPanelExample : List ByteFrame :=
  [⟨0x10, 0, 0⟩, ⟨0x28, 0, 0⟩, ⟨0x25, 0, 0⟩, ⟨0x00, 0, 0⟩, ⟨0x00, 0, 0⟩,
   ⟨0x08, 0, 0⟩]

/-- Byte events at time 1 carrying `AA 28 00 00 00 87`: a valid packet that
the classifier sends through the HVAC (unit) decoder when the anchor is
close enough. -/
def pktHvacExample : List ByteFrame :=
  [⟨0xAA, 1, 1⟩, ⟨0x28, 1, 1⟩, ⟨0x00, 1, 1⟩, ⟨0x00, 1, 1⟩, ⟨0x00, 1, 1⟩,
   ⟨0x87, 1, 1⟩]

/-- Byte events carrying `90 00 00 00 00 C5`: a features-inquiry packet
(`p[0] & 0x90 == 0x90`) whose payload bytes 1-3 are all zero. -/
def pktFeaturesZero : List ByteFrame :=
  [⟨0x90, 0, 0⟩, ⟨0x00, 0, 0⟩, ⟨0x00, 0, 0⟩, ⟨0x00, 0, 0⟩, ⟨0x00, 0, 0⟩,
   ⟨0xC5, 0, 0⟩]

/-- Byte events spanning times 0..5 carrying `01 02 03 04 05 00`, whose
trailing byte does not match the checksum `0x5A` of the payload. -/
def pktBadChecksum : List ByteFrame :=
  [⟨0x01, 0, 0⟩, ⟨0x02, 1, 1⟩, ⟨0x03, 2, 2⟩, ⟨0x04, 3, 3⟩, ⟨0x05, 4, 4⟩,
   ⟨0x00, 5, 5⟩]

/-! ### Helper lemmas about the dictionary model -/

theorem dictLookup_dictSet_self (d : Dict) (k : String) (v : AttrValue) :
    dictLookup (dictSet d k v) k = some v := by
  induction d with
  | nil => simp [dictSet, dictLookup]
  | cons p rest ih =>
    obtain ⟨k', v'⟩ := p
    by_cases h : k' = k <;> simp [dictSet, dictLookup, h, ih]

theorem dictLookup_dictSet_ne (d : Dict) {k k' : String} (v : AttrValue)
    (h : k ≠ k') : dictLookup (dictSet d k' v) k = dictLookup d k := by
  have h' : ¬k' = k := fun hh => h hh.symm
  induction d with
  | nil => simp [dictSet, dictLookup, h']
  | cons p rest ih =>
    obtain ⟨k'', v''⟩ := p
    by_cases h2 : k'' = k' <;> by_cases h3 : k'' = k <;>
      simp_all [dictSet, dictLookup]

theorem dictContains_dictSet_self (d : Dict) (k : String) (v : AttrValue) :
    dictContains (dictSet d k v) k = true := by
  simp [dictContains, dictLookup_dictSet_self]

theorem dictContains_dictSet_ne (d : Dict) {k k' : String} (v : AttrValue)
    (h : k ≠ k') : dictContains (dictSet d k' v) k = dictContains d k := by
  simp [dictContains, dictLookup_dictSet_ne d v h]

/-! ### Case lemmas for `recompose_packet` -/

theorem recompose_packet_invalid (pf : List ByteFrame) (le : Option GTime)
    (hbad : (pf.map ByteFrame.value).getLastD 0
      ≠ _checksum (pf.map ByteFrame.value).dropLast) :
    recompose_packet pf le
      = some ⟨"invalid_checksum", (pf.headD defFrame).start_time,
              (pf.getLastD defFrame).end_time,
              [("data", AttrValue.str (bytesHex (pf.map ByteFrame.value)))]⟩ := by
  simp only [recompose_packet]
  rw [if_pos hbad]

theorem recompose_packet_valid_hvac (pf : List ByteFrame) (t : GTime)
    (hok : (pf.map ByteFrame.value).getLastD 0
      = _checksum (pf.map ByteFrame.value).dropLast)
    (hlt : (pf.headD defFrame).start_time - t < 300 / 1000) :
    recompose_packet pf (some t)
      = some ⟨"valid_packet", (pf.headD defFrame).start_time,
              (pf.getLastD defFrame).end_time,
              annotate_hvac_packet (pf.map ByteFrame.value)
                (initAttrs (pf.map ByteFrame.value))⟩ := by
  simp only [recompose_packet, initAttrs]
  rw [if_neg (fun hn => hn hok), if_pos hlt]

theorem recompose_packet_valid_panel_some (pf : List ByteFrame) (t : GTime)
    (hok : (pf.map ByteFrame.value).getLastD 0
      = _checksum (pf.map ByteFrame.value).dropLast)
    (hge : ¬((pf.headD defFrame).start_time - t < 300 / 1000)) :
    recompose_packet pf (some t)
      = (annotate_panel_packet (pf.map ByteFrame.value)
          (initAttrs (pf.map ByteFrame.value))).map
        (fun a =>
          ⟨"valid_packet", (pf.headD defFrame).start_time,
           (pf.getLastD defFrame).end_time, a⟩) := by
  simp only [recompose_packet, initAttrs]
  rw [if_neg (fun hn => hn hok), if_neg hge]

theorem recompose_packet_valid_panel_none (pf : List ByteFrame)
    (hok : (pf.map ByteFrame.value).getLastD 0
      = _checksum (pf.map ByteFrame.value).dropLast) :
    recompose_packet pf none
      = (annotate_panel_packet (pf.map ByteFrame.value)
          (initAttrs (pf.map ByteFrame.value))).map
        (fun a =>
          ⟨"valid_packet", (pf.headD defFrame).start_time,
           (pf.getLastD defFrame).end_time, a⟩) := by
  simp only [recompose_packet, initAttrs]
  rw [if_neg (fun hn => hn hok), if_neg (by norm_num)]

/-- Any frame returned by `recompose_packet` for a packet whose trailing
byte matches the checksum carries the `valid_packet` tag. -/
theorem recompose_type_of_valid (pf : List ByteFrame) (le : Option GTime)
    (af : AnalyzerFrame)
    (hok : (pf.map ByteFrame.value).getLastD 0
      = _checksum (pf.map ByteFrame.value).dropLast)
    (haf : recompose_packet pf le = some af) :
    af.type = "valid_packet" := by
  cases le with
  | none =>
    rw [recompose_packet_valid_panel_none pf hok] at haf
    cases hap : annotate_panel_packet (pf.map ByteFrame.value)
        (initAttrs (pf.map ByteFrame.value)) with
    | none => rw [hap] at haf; simp at haf
    | some a => rw [hap] at haf; simp at haf; rw [← haf]
  | some t =>
    by_cases hlt : (pf.headD defFrame).start_time - t < 300 / 1000
    · rw [recompose_packet_valid_hvac pf t hok hlt] at haf
      simp at haf
      rw [← haf]
    · rw [recompose_packet_valid_panel_some pf t hok hlt] at haf
      cases hap : annotate_panel_packet (pf.map ByteFrame.value)
          (initAttrs (pf.map ByteFrame.value)) with
      | none => rw [hap] at haf; simp at haf
      | some a => rw [hap] at haf; simp at haf; rw [← haf]

/-! ### C1 -/

/-- C1 (counterexample): the packet `00 00 30 00 00 65` has a correct
trailing checksum, yet `recompose_packet` emits nothing for it: the panel
decoder's `_FAN_SPEED[0x30]` subscript raises, so the packet is not emitted
as a valid packet, refuting the stated "if and only if". -/
theorem C1_counterexample :
    (pktFanUnknown.map ByteFrame.value).getLastD 0
      = _checksum (pktFanUnknown.map ByteFrame.value).dropLast ∧
    recompose_packet pktFanUnknown none = none := by
  constructor
  · decide
  · rw [recompose_packet_valid_panel_none pktFanUnknown (by decide)]
    rfl

/-- C1 (amended): for a completed 6-byte packet, the emitted record is an
invalid-checksum record iff the 6th byte differs from
`(sum of the first five bytes mod 256) XOR 0x55`; any emitted record is a
valid packet iff the 6th byte equals that checksum (when the checksum
matches, field decoding may still abort without emitting anything); and the
source checksum agrees with the `(sum mod 256) XOR 0x55` formula. -/
theorem C1_checksum_gate (pf : List ByteFrame) (le : Option GTime)
    (_h6 : pf.length = 6) :
    (((recompose_packet pf le).map AnalyzerFrame.type
        = some "invalid_checksum")
      ↔ (pf.map ByteFrame.value).getLastD 0
          ≠ _checksum (pf.map ByteFrame.value).dropLast) ∧
    (∀ af, recompose_packet pf le = some af →
      (af.type = "valid_packet"
        ↔ (pf.map ByteFrame.value).getLastD 0
            = _checksum (pf.map ByteFrame.value).dropLast)) ∧
    _checksum (pf.map ByteFrame.value).dropLast
      = ((pf.map ByteFrame.value).dropLast.sum % 256) ^^^ 0x55 := by
  refine ⟨?_, ?_, ?_⟩
  · by_cases hc : (pf.map ByteFrame.value).getLastD 0
        = _checksum (pf.map ByteFrame.value).dropLast
    · simp only [hc, ne_eq, not_true_eq_false, iff_false]
      intro hmap
      obtain ⟨af, haf, htype⟩ : ∃ af, recompose_packet pf le = some af ∧
          af.type = "invalid_checksum" := by
        cases hre : recompose_packet pf le with
        | none => rw [hre] at hmap; simp at hmap
        | some af => rw [hre] at hmap; simp at hmap; exact ⟨af, rfl, hmap⟩
      have := recompose_type_of_valid pf le af hc haf
      rw [this] at htype
      simp at htype
    · rw [recompose_packet_invalid pf le hc]
      exact iff_of_true rfl hc
  · intro af haf
    by_cases hc : (pf.map ByteFrame.value).getLastD 0
        = _checksum (pf.map ByteFrame.value).dropLast
    · exact iff_of_true (recompose_type_of_valid pf le af hc haf) hc
    · rw [recompose_packet_invalid pf le hc] at haf
      simp at haf
      exact iff_of_false (by rw [← haf]; simp) hc
  · have h8 := Nat.and_pow_two_sub_one_eq_mod
      ((pf.map ByteFrame.value).dropLast.sum) 8
    norm_num at h8
    simp [_checksum, h8]

/-- C1 (witness): the amended theorem applied to the concrete invalid
packet `01 02 03 04 05 00`. -/
theorem C1_checksum_gate_witness :
    ((recompose_packet pktBadChecksum none).map AnalyzerFrame.type
        = some "invalid_checksum")
      ↔ (pktBadChecksum.map ByteFrame.value).getLastD 0
          ≠ _checksum (pktBadChecksum.map ByteFrame.value).dropLast :=
  (C1_checksum_gate pktBadChecksum none (by decide)).1

/-! ### Case lemmas for `Hla.decode` -/

theorem decode_nondata (s : HlaState) (frame : InputFrame)
    (h : frame.type ≠ "data") : Hla.decode s frame = some (s, none) := by
  unfold Hla.decode
  rw [if_pos h]

theorem decode_data_keep (s : HlaState) (frame : InputFrame)
    (hd : frame.type = "data")
    (hkeep : ¬(s.packet ≠ [] ∧
      frame.end_time - (s.packet.getLastD defFrame).end_time
        > _PACKETS_DISTANCE)) :
    Hla.decode s frame
      = if (s.packet
            ++ [(⟨frame.value, frame.start_time, frame.end_time⟩ :
                  ByteFrame)]).length = 6 then
          match recompose_packet
              (s.packet ++ [⟨frame.value, frame.start_time, frame.end_time⟩])
              s.last_end with
          | none => none
          | some analyzed_frame =>
              some (⟨some analyzed_frame.end_time, []⟩, some analyzed_frame)
        else
          some (⟨s.last_end,
                 s.packet ++ [⟨frame.value, frame.start_time, frame.end_time⟩]⟩,
                none) := by
  unfold Hla.decode
  rw [if_neg (by simp [hd]), if_neg hkeep]

theorem decode_data_reset (s : HlaState) (frame : InputFrame)
    (hd : frame.type = "data") (hne : s.packet ≠ [])
    (hgap : frame.end_time - (s.packet.getLastD defFrame).end_time
      > _PACKETS_DISTANCE) :
    Hla.decode s frame
      = some (⟨s.last_end, [⟨frame.value, frame.start_time, frame.end_time⟩]⟩,
              none) := by
  unfold Hla.decode
  rw [if_neg (by simp [hd]), if_pos (And.intro hne hgap)]
  rfl

/-! ### C2 -/

/-- C2: for every valid-checksum packet, the classification gap decides the
decoder exactly as claimed: with an anchor `t`, a gap strictly below 300 ms
routes the packet through the Unit (HVAC) decoder, a gap of 300 ms or more
through the Panel decoder; with no anchor the distance defaults to
30 seconds and the Panel decoder is selected. -/
theorem C2_classifier (pf : List ByteFrame) (_h6 : pf.length = 6)
    (hok : (pf.map ByteFrame.value).getLastD 0
      = _checksum (pf.map ByteFrame.value).dropLast) :
    (∀ t : GTime, (pf.headD defFrame).start_time - t < 300 / 1000 →
      recompose_packet pf (some t)
        = some ⟨"valid_packet", (pf.headD defFrame).start_time,
                (pf.getLastD defFrame).end_time,
                annotate_hvac_packet (pf.map ByteFrame.value)
                  (initAttrs (pf.map ByteFrame.value))⟩) ∧
    (∀ t : GTime, ¬((pf.headD defFrame).start_time - t < 300 / 1000) →
      recompose_packet pf (some t)
        = (annotate_panel_packet (pf.map ByteFrame.value)
            (initAttrs (pf.map ByteFrame.value))).map
          (fun a =>
            ⟨"valid_packet", (pf.headD defFrame).start_time,
             (pf.getLastD defFrame).end_time, a⟩)) ∧
    recompose_packet pf none
      = (annotate_panel_packet (pf.map ByteFrame.value)
          (initAttrs (pf.map ByteFrame.value))).map
        (fun a =>
          ⟨"valid_packet", (pf.headD defFrame).start_time,
           (pf.getLastD defFrame).end_time, a⟩) :=
  ⟨fun t hlt => recompose_packet_valid_hvac pf t hok hlt,
   fun t hge => recompose_packet_valid_panel_some pf t hok hge,
   recompose_packet_valid_panel_none pf hok⟩

/-- C2 (witness): the valid packet `AA 28 00 00 00 87` arriving at time 1
with anchor 1 (gap 0 < 300 ms) goes through the HVAC decoder. -/
theorem C2_classifier_witness :
    recompose_packet pktHvacExample (some 1)
      = some ⟨"valid_packet", (pktHvacExample.headD defFrame).start_time,
              (pktHvacExample.getLastD defFrame).end_time,
              annotate_hvac_packet (pktHvacExample.map ByteFrame.value)
                (initAttrs (pktHvacExample.map ByteFrame.value))⟩ :=
  (C2_classifier pktHvacExample (by decide) (by decide)).1 1
    (by norm_num [pktHvacExample, defFrame])

/-! ### C3 -/

/-- C3: the decoder can stop consuming the stream.  The byte stream
`00 00 30 00 00 65` completes a packet with a correct checksum, classified
Panel (no prior anchor) and not a features inquiry, whose fan-speed code
`p[2] & 0x70 = 0x30` is outside `_FAN_SPEED`; the subscript on line 77
raises KeyError, so processing aborts (`none`) and no record is yielded,
contradicting the claim. -/
theorem C3_unknown_fan_speed_aborts :
    _FAN_SPEED (0x30 &&& 0x70) = none ∧
    (streamFanUnknown.map InputFrame.value).getLastD 0
      = _checksum (streamFanUnknown.map InputFrame.value).dropLast ∧
    runStream initState streamFanUnknown = none := by
  refine ⟨by decide, by decide, ?_⟩
  have d1 : Hla.decode initState ⟨"data", 0x00, 0, 0⟩
      = some (⟨none, [⟨0x00, 0, 0⟩]⟩, none) := by
    rw [decode_data_keep _ _ rfl (by simp [initState])]
    rfl
  have d2 : Hla.decode ⟨none, [⟨0x00, 0, 0⟩]⟩ ⟨"data", 0x00, 1, 1⟩
      = some (⟨none, [⟨0x00, 0, 0⟩, ⟨0x00, 1, 1⟩]⟩, none) := by
    rw [decode_data_keep _ _ rfl
      (by norm_num [defFrame, _PACKETS_DISTANCE])]
    rfl
  have d3 : Hla.decode ⟨none, [⟨0x00, 0, 0⟩, ⟨0x00, 1, 1⟩]⟩
        ⟨"data", 0x30, 2, 2⟩
      = some (⟨none, [⟨0x00, 0, 0⟩, ⟨0x00, 1, 1⟩, ⟨0x30, 2, 2⟩]⟩, none) := by
    rw [decode_data_keep _ _ rfl
      (by norm_num [defFrame, _PACKETS_DISTANCE])]
    rfl
  have d4 : Hla.decode
        ⟨none, [⟨0x00, 0, 0⟩, ⟨0x00, 1, 1⟩, ⟨0x30, 2, 2⟩]⟩
        ⟨"data", 0x00, 3, 3⟩
      = some (⟨none, [⟨0x00, 0, 0⟩, ⟨0x00, 1, 1⟩, ⟨0x30, 2, 2⟩,
                      ⟨0x00, 3, 3⟩]⟩, none) := by
    rw [decode_data_keep _ _ rfl
      (by norm_num [defFrame, _PACKETS_DISTANCE])]
    rfl
  have d5 : Hla.decode
        ⟨none, [⟨0x00, 0, 0⟩, ⟨0x00, 1, 1⟩, ⟨0x30, 2, 2⟩, ⟨0x00, 3, 3⟩]⟩
        ⟨"data", 0x00, 4, 4⟩
      = some (⟨none, [⟨0x00, 0, 0⟩, ⟨0x00, 1, 1⟩, ⟨0x30, 2, 2⟩, ⟨0x00, 3, 3⟩,
                      ⟨0x00, 4, 4⟩]⟩, none) := by
    rw [decode_data_keep _ _ rfl
      (by norm_num [defFrame, _PACKETS_DISTANCE])]
    rfl
  have d6 : Hla.decode
        ⟨none, [⟨0x00, 0, 0⟩, ⟨0x00, 1, 1⟩, ⟨0x30, 2, 2⟩, ⟨0x00, 3, 3⟩,
                ⟨0x00, 4, 4⟩]⟩
        ⟨"data", 0x65, 5, 5⟩ = none := by
    have r6 : recompose_packet
        [⟨0x00, 0, 0⟩, ⟨0x00, 1, 1⟩, ⟨0x30, 2, 2⟩, ⟨0x00, 3, 3⟩,
         ⟨0x00, 4, 4⟩, ⟨0x65, 5, 5⟩] none = none := by
      rw [recompose_packet_valid_panel_none _ (by decide)]
      rfl
    rw [decode_data_keep _ _ rfl
      (by norm_num [defFrame, _PACKETS_DISTANCE])]
    simp [r6]
  simp only [streamFanUnknown, runStream, d1, d2, d3, d4, d5, d6]

/-! ### C4 -/

/-- C4 (counterexample): with one buffered byte ending at time 0 and an
incoming byte event with `start_time = 1/2` and `end_time = 3/2`, the gap
from the event's START time (1/2) does not exceed the one-second threshold,
so the claim requires the buffer to be retained; but the code measures from
the event's END time (3/2 - 0 > 1) and discards the buffered byte. -/
theorem C4_counterexample :
    ¬((1 : GTime) / 2 - (0 : GTime) > _PACKETS_DISTANCE) ∧
    Hla.decode ⟨none, [⟨0x11, 0, 0⟩]⟩ ⟨"data", 0x22, 1 / 2, 3 / 2⟩
      = some (⟨none, [⟨0x22, 1 / 2, 3 / 2⟩]⟩, none) ∧
    (0x11 : Nat) ∉ [(⟨0x22, 1 / 2, 3 / 2⟩ : ByteFrame)].map ByteFrame.value := by
  refine ⟨by norm_num [_PACKETS_DISTANCE], ?_, by decide⟩
  rw [decode_data_reset _ _ rfl (by simp)
    (by norm_num [defFrame, _PACKETS_DISTANCE])]

/-- C4 (amended): the reset gap is measured from the incoming event's END
time: while the buffer is non-empty, if `event.end_time` minus the last
buffered event's `end_time` exceeds `_PACKETS_DISTANCE` the buffer is
discarded with no record emitted and the new event starts a fresh buffer;
otherwise the buffer is retained and the event appended (the packet then
completed or kept is exactly the old buffer plus the new event). -/
theorem C4_gap_reset (s : HlaState) (frame : InputFrame)
    (hd : frame.type = "data") (hne : s.packet ≠ []) :
    (frame.end_time - (s.packet.getLastD defFrame).end_time
        > _PACKETS_DISTANCE →
      Hla.decode s frame
        = some (⟨s.last_end,
                 [⟨frame.value, frame.start_time, frame.end_time⟩]⟩, none)) ∧
    (¬(frame.end_time - (s.packet.getLastD defFrame).end_time
        > _PACKETS_DISTANCE) →
      Hla.decode s frame
        = if (s.packet
              ++ [(⟨frame.value, frame.start_time, frame.end_time⟩ :
                    ByteFrame)]).length = 6 then
            match recompose_packet
                (s.packet ++ [⟨frame.value, frame.start_time, frame.end_time⟩])
                s.last_end with
            | none => none
            | some analyzed_frame =>
                some (⟨some analyzed_frame.end_time, []⟩, some analyzed_frame)
          else
            some (⟨s.last_end,
                   s.packet
                     ++ [⟨frame.value, frame.start_time, frame.end_time⟩]⟩,
                  none)) :=
  ⟨fun hgap => decode_data_reset s frame hd hne hgap,
   fun hgap => decode_data_keep s frame hd (fun hand => hgap hand.2)⟩

/-- C4 (witness): a buffered byte ending at time 0 followed by an event
ending at time 3 (gap above one second) leaves only the new event
buffered. -/
theorem C4_gap_reset_witness :
    Hla.decode ⟨none, [⟨0x11, 0, 0⟩]⟩ ⟨"data", 0x22, 2, 3⟩
      = some (⟨none, [⟨0x22, 2, 3⟩]⟩, none) :=
  (C4_gap_reset ⟨none, [⟨0x11, 0, 0⟩]⟩ ⟨"data", 0x22, 2, 3⟩ rfl (by simp)).1
    (by norm_num [defFrame, _PACKETS_DISTANCE])

/-! ### C5 -/

/-- C5: for the features-inquiry packet `90 00 00 00 00 C5`, payload bytes
1-3 are all zero, yet an `unknown_data` entry `[0, 0, 0, 0]` is still
recorded: line 60 compares the 3-byte slice `packet_data[1:4]` against the
4-byte literal `b"\x00\x00\x00\x00"`, which can never be equal, so the
"no unknown bits" branch is unreachable, contradicting the claim. -/
theorem C5_features_zero_bytes_still_recorded :
    ((pktFeaturesZero.map ByteFrame.value).drop 1).take 3
      = [0x00, 0x00, 0x00] ∧
    recompose_packet pktFeaturesZero none
      = some ⟨"valid_packet", 0, 0,
          [("data", AttrValue.str "9000000000"),
           ("checksum", AttrValue.nat 0xC5),
           ("source", AttrValue.str "Panel"),
           ("features_inquiry", AttrValue.bool true),
           ("unknown_data", AttrValue.bytes [0x00, 0x00, 0x00, 0x00])]⟩ := by
  refine ⟨by decide, ?_⟩
  rw [recompose_packet_valid_panel_none pktFeaturesZero (by decide)]
  rfl

/-! ### C6 -/

/-- C6: whenever `Hla.decode` completes a 6-byte packet and returns an
analyzed frame (valid or invalid checksum alike), the successor state's
`_last_end` anchor equals that frame's `end_time`. -/
theorem C6_anchor_advances (s : HlaState) (frame : InputFrame)
    (s' : HlaState) (af : AnalyzerFrame)
    (h : Hla.decode s frame = some (s', some af)) :
    s'.last_end = some af.end_time := by
  by_cases ht : frame.type ≠ "data"
  · rw [decode_nondata s frame ht] at h
    simp at h
  · have hd : frame.type = "data" := not_not.mp ht
    by_cases hreset : s.packet ≠ [] ∧
        frame.end_time - (s.packet.getLastD defFrame).end_time
          > _PACKETS_DISTANCE
    · rw [decode_data_reset s frame hd hreset.1 hreset.2] at h
      simp at h
    · rw [decode_data_keep s frame hd hreset] at h
      split at h
      · cases hre : recompose_packet
            (s.packet ++ [⟨frame.value, frame.start_time, frame.end_time⟩])
            s.last_end with
        | none => rw [hre] at h; simp at h
        | some a =>
          rw [hre] at h
          simp only [Option.some.injEq, Prod.mk.injEq] at h
          obtain ⟨hs, ha⟩ := h
          rw [← hs, ← ha]
      · simp at h

/-- C6 (witness): completing the packet `01 02 03 04 05 00` (whose checksum
is wrong) still advances the anchor to the invalid record's end time 5. -/
theorem C6_anchor_advances_witness :
    HlaState.last_end ⟨some 5, []⟩
      = some (AnalyzerFrame.end_time
          ⟨"invalid_checksum", 0, 5, [("data", AttrValue.str "010203040500")]⟩) := by
  refine C6_anchor_advances
    ⟨none, [⟨0x01, 0, 0⟩, ⟨0x02, 1, 1⟩, ⟨0x03, 2, 2⟩, ⟨0x04, 3, 3⟩,
            ⟨0x05, 4, 4⟩]⟩
    ⟨"data", 0x00, 5, 5⟩ ⟨some 5, []⟩
    ⟨"invalid_checksum", 0, 5, [("data", AttrValue.str "010203040500")]⟩ ?_
  have r : recompose_packet
      [⟨0x01, 0, 0⟩, ⟨0x02, 1, 1⟩, ⟨0x03, 2, 2⟩, ⟨0x04, 3, 3⟩, ⟨0x05, 4, 4⟩,
       ⟨0x00, 5, 5⟩] none
      = some ⟨"invalid_checksum", 0, 5,
              [("data", AttrValue.str "010203040500")]⟩ := by
    rw [recompose_packet_invalid _ _ (by decide)]
    rfl
  rw [decode_data_keep _ _ rfl (by norm_num [defFrame, _PACKETS_DISTANCE])]
  simp [r]

/-! ### C7 -/

/-- C7: the Unit-variant decoder, over any payload and any attribute dict
not already holding a room temperature: when bit 7 of `p[1]` is clear the
decoded `room_temperature` is `p[1]/2 + 10` and the residual zeroes byte 1;
when bit 7 is set no `room_temperature` is reported and the residual keeps
all five payload bytes. -/
theorem C7_unit_decoder (packet_data : List Nat) (base : Dict)
    (hnr : dictLookup base "room_temperature" = none) :
    (packet_data.getD 1 0 &&& 0x80 = 0 →
      dictLookup (annotate_hvac_packet packet_data base) "room_temperature"
        = some (.rat ((packet_data.getD 1 0 : ℚ) / 2 + 10)) ∧
      dictLookup (annotate_hvac_packet packet_data base) "unknown_data"
        = some (.bytes [packet_data.getD 0 0, 0, packet_data.getD 2 0,
                        packet_data.getD 3 0, packet_data.getD 4 0])) ∧
    (packet_data.getD 1 0 &&& 0x80 ≠ 0 →
      dictLookup (annotate_hvac_packet packet_data base) "room_temperature"
        = none ∧
      dictLookup (annotate_hvac_packet packet_data base) "unknown_data"
        = some (.bytes [packet_data.getD 0 0, packet_data.getD 1 0,
                        packet_data.getD 2 0, packet_data.getD 3 0,
                        packet_data.getD 4 0])) := by
  constructor
  · intro hbit
    simp only [annotate_hvac_packet]
    rw [if_pos hbit]
    constructor
    · simp [dictLookup_dictSet_ne, dictLookup_dictSet_self]
    · simp [dictLookup_dictSet_self, dictContains_dictSet_self]
  · intro hbit
    simp only [annotate_hvac_packet]
    rw [if_neg hbit]
    constructor
    · simp [dictLookup_dictSet_ne, dictLookup_dictSet_self,
        dictContains, hnr]
    · simp [dictLookup_dictSet_self, dictLookup_dictSet_ne, dictContains,
        hnr]

/-- C7 (witness): the Unit decoder applied to payload `AA 28 07 09 0B` over
the usual initial attributes: bit 7 of `0x28` is clear, so the temperature
is decoded and byte 1 is zeroed in the residual. -/
theorem C7_unit_decoder_witness :
    dictLookup
        (annotate_hvac_packet [0xAA, 0x28, 0x07, 0x09, 0x0B]
          (initAttrs [0xAA, 0x28, 0x07, 0x09, 0x0B]))
        "room_temperature"
      = some (.rat (((0x28 : Nat) : ℚ) / 2 + 10)) ∧
    dictLookup
        (annotate_hvac_packet [0xAA, 0x28, 0x07, 0x09, 0x0B]
          (initAttrs [0xAA, 0x28, 0x07, 0x09, 0x0B]))
        "unknown_data"
      = some (.bytes [0xAA, 0, 0x07, 0x09, 0x0B]) :=
  (C7_unit_decoder [0xAA, 0x28, 0x07, 0x09, 0x0B]
    (initAttrs [0xAA, 0x28, 0x07, 0x09, 0x0B]) (by decide)).1 (by decide)

/-! ### C8 -/

/-- C8: every completed 6-byte packet failing checksum validation is
emitted as an `invalid_checksum` record whose hex text renders all six
bytes, and its attribute dict holds nothing but that text: in particular no
`source` attribute and no decoded semantic field. -/
theorem C8_invalid_record (pf : List ByteFrame) (le : Option GTime)
    (h6 : pf.length = 6)
    (hbad : (pf.map ByteFrame.value).getLastD 0
      ≠ _checksum (pf.map ByteFrame.value).dropLast) :
    recompose_packet pf le
      = some ⟨"invalid_checksum", (pf.headD defFrame).start_time,
              (pf.getLastD defFrame).end_time,
              [("data", AttrValue.str (bytesHex (pf.map ByteFrame.value)))]⟩ ∧
    (pf.map ByteFrame.value).length = 6 ∧
    (∀ k, k ≠ "data" →
      dictLookup [("data", AttrValue.str (bytesHex (pf.map ByteFrame.value)))]
        k = none) := by
  refine ⟨recompose_packet_invalid pf le hbad, by simp [h6], ?_⟩
  intro k hk
  simp [dictLookup, Ne.symm hk]

/-- C8 (witness): the packet `01 02 03 04 05 00` fails validation and is
emitted as the invalid-checksum record over all six bytes. -/
theorem C8_invalid_record_witness :
    recompose_packet pktBadChecksum (some 0)
      = some ⟨"invalid_checksum", 0, 5,
              [("data", AttrValue.str "010203040500")]⟩ ∧
    dictLookup [("data",
        AttrValue.str (bytesHex (pktBadChecksum.map ByteFrame.value)))]
      "source" = none := by
  have h := C8_invalid_record pktBadChecksum (some 0) (by decide) (by decide)
  exact ⟨h.1, h.2.2 "source" (by decide)⟩

/-! ### C9 -/

theorem annotate_hvac_source (pd : List Nat) (base : Dict) :
    dictLookup (annotate_hvac_packet pd base) "source"
      = some (.str "HVAC") := by
  simp only [annotate_hvac_packet]
  by_cases hbit : pd.getD 1 0 &&& 0x80 = 0
  · rw [if_pos hbit]
    simp [dictLookup_dictSet_ne, dictLookup_dictSet_self]
  · rw [if_neg hbit]
    simp [dictLookup_dictSet_ne, dictLookup_dictSet_self]

theorem annotate_panel_source (pd : List Nat) (base : Dict) (a : Dict)
    (h : annotate_panel_packet pd base = some a) :
    dictLookup a "source" = some (.str "Panel") := by
  simp only [annotate_panel_packet] at h
  by_cases h0 : pd.getD 0 0 &&& 0x90 = 0x90
  · rw [if_pos h0] at h
    by_cases h1 : (pd.drop 1).take 3 ≠ [0x00, 0x00, 0x00, 0x00]
    · rw [if_pos h1] at h
      simp only [Option.some.injEq] at h
      rw [← h]
      simp [dictLookup_dictSet_ne, dictLookup_dictSet_self]
    · rw [if_neg h1] at h
      simp only [Option.some.injEq] at h
      rw [← h]
      simp [dictLookup_dictSet_ne, dictLookup_dictSet_self]
  · rw [if_neg h0] at h
    cases hfs : _FAN_SPEED (pd.getD 2 0 &&& 0x70) with
    | none => rw [hfs] at h; simp at h
    | some fs =>
      rw [hfs] at h
      simp only [Option.some.injEq] at h
      rw [← h]
      simp [dictLookup_dictSet_ne, dictLookup_dictSet_self]

/-- C9 (counterexample): the valid packet `AA 28 00 00 00 87` arriving with
gap 0 (< 300 ms) is emitted with source label `HVAC`, not `Unit`: the code
labels the indoor unit `HVAC`, refuting the claim that the two labels are
`Unit` and `Panel`. -/
theorem C9_counterexample :
    recompose_packet pktHvacExample (some 1)
      = some ⟨"valid_packet", 1, 1,
          [("data", AttrValue.str "aa28000000"),
           ("checksum", AttrValue.nat 0x87),
           ("source", AttrValue.str "HVAC"),
           ("room_temperature", AttrValue.rat (((0x28 : Nat) : ℚ) / 2 + 10)),
           ("unknown_data", AttrValue.bytes [0xAA, 0x00, 0x00, 0x00, 0x00])]⟩ ∧
    dictLookup
        [("data", AttrValue.str "aa28000000"),
         ("checksum", AttrValue.nat 0x87),
         ("source", AttrValue.str "HVAC"),
         ("room_temperature", AttrValue.rat (((0x28 : Nat) : ℚ) / 2 + 10)),
         ("unknown_data", AttrValue.bytes [0xAA, 0x00, 0x00, 0x00, 0x00])]
        "source" = some (AttrValue.str "HVAC") ∧
    AttrValue.str "HVAC" ≠ AttrValue.str "Unit" ∧
    classifier_gap pktHvacExample (some 1) < 300 / 1000 := by
  refine ⟨?_, by decide, by decide,
    by norm_num [classifier_gap, pktHvacExample, defFrame]⟩
  rw [recompose_packet_valid_hvac pktHvacExample 1 (by decide)
    (by norm_num [pktHvacExample, defFrame])]
  rfl

/-- C9 (amended): every valid-packet record's source label is `HVAC` when
the classification gap is below 300 ms and `Panel` otherwise (the code
writes `HVAC`, not `Unit`, for the indoor unit). -/
theorem C9_source_labels (pf : List ByteFrame) (le : Option GTime)
    (af : AnalyzerFrame)
    (hok : (pf.map ByteFrame.value).getLastD 0
      = _checksum (pf.map ByteFrame.value).dropLast)
    (haf : recompose_packet pf le = some af) :
    dictLookup af.data "source"
      = some (.str (if classifier_gap pf le < 300 / 1000
                    then "HVAC" else "Panel")) := by
  cases le with
  | none =>
    rw [recompose_packet_valid_panel_none pf hok] at haf
    cases hap : annotate_panel_packet (pf.map ByteFrame.value)
        (initAttrs (pf.map ByteFrame.value)) with
    | none => rw [hap] at haf; simp at haf
    | some a =>
      rw [hap] at haf
      simp only [Option.map_some', Option.some.injEq] at haf
      rw [← haf, if_neg (by norm_num [classifier_gap])]
      simpa using annotate_panel_source (pf.map ByteFrame.value) _ a hap
  | some t =>
    by_cases hlt : (pf.headD defFrame).start_time - t < 300 / 1000
    · rw [recompose_packet_valid_hvac pf t hok hlt] at haf
      simp only [Option.some.injEq] at haf
      rw [← haf, if_pos (by simpa [classifier_gap] using hlt)]
      simpa using annotate_hvac_source (pf.map ByteFrame.value)
        (initAttrs (pf.map ByteFrame.value))
    · rw [recompose_packet_valid_panel_some pf t hok hlt] at haf
      cases hap : annotate_panel_packet (pf.map ByteFrame.value)
          (initAttrs (pf.map ByteFrame.value)) with
      | none => rw [hap] at haf; simp at haf
      | some a =>
        rw [hap] at haf
        simp only [Option.map_some', Option.some.injEq] at haf
        rw [← haf, if_neg (by simpa [classifier_gap] using hlt)]
        simpa using annotate_panel_source (pf.map ByteFrame.value) _ a hap

/-- C9 (witness): the amended theorem applied to the concrete packet
`AA 28 00 00 00 87` with anchor 1: the label is `HVAC`. -/
theorem C9_source_labels_witness :
    dictLookup
        [("data", AttrValue.str "aa28000000"),
         ("checksum", AttrValue.nat 0x87),
         ("source", AttrValue.str "HVAC"),
         ("room_temperature", AttrValue.rat (((0x28 : Nat) : ℚ) / 2 + 10)),
         ("unknown_data", AttrValue.bytes [0xAA, 0x00, 0x00, 0x00, 0x00])]
        "source" = some (AttrValue.str "HVAC") := by
  have h := C9_source_labels pktHvacExample (some 1)
    ⟨"valid_packet", 1, 1,
     [("data", AttrValue.str "aa28000000"),
      ("checksum", AttrValue.nat 0x87),
      ("source", AttrValue.str "HVAC"),
      ("room_temperature", AttrValue.rat (((0x28 : Nat) : ℚ) / 2 + 10)),
      ("unknown_data", AttrValue.bytes [0xAA, 0x00, 0x00, 0x00, 0x00])]⟩
    (by decide)
    (by
      rw [recompose_packet_valid_hvac pktHvacExample 1 (by decide)
        (by norm_num [pktHvacExample, defFrame])]
      rfl)
  rw [if_pos (by norm_num [classifier_gap, pktHvacExample, defFrame])] at h
  exact h

/-! ### C10 -/

/-- C10: every emitted record, valid and invalid-checksum alike, spans from
the first buffered byte event's start time to the last one's end time. -/
theorem C10_record_span (pf : List ByteFrame) (le : Option GTime)
    (af : AnalyzerFrame) (_h6 : pf.length = 6)
    (haf : recompose_packet pf le = some af) :
    af.start_time = (pf.headD defFrame).start_time ∧
    af.end_time = (pf.getLastD defFrame).end_time := by
  by_cases hc : (pf.map ByteFrame.value).getLastD 0
      = _checksum (pf.map ByteFrame.value).dropLast
  · cases le with
    | none =>
      rw [recompose_packet_valid_panel_none pf hc] at haf
      cases hap : annotate_panel_packet (pf.map ByteFrame.value)
          (initAttrs (pf.map ByteFrame.value)) with
      | none => rw [hap] at haf; simp at haf
      | some a =>
        rw [hap] at haf
        simp only [Option.map_some', Option.some.injEq] at haf
        rw [← haf]
        exact ⟨rfl, rfl⟩
    | some t =>
      by_cases hlt : (pf.headD defFrame).start_time - t < 300 / 1000
      · rw [recompose_packet_valid_hvac pf t hc hlt] at haf
        simp only [Option.some.injEq] at haf
        rw [← haf]
        exact ⟨rfl, rfl⟩
      · rw [recompose_packet_valid_panel_some pf t hc hlt] at haf
        cases hap : annotate_panel_packet (pf.map ByteFrame.value)
            (initAttrs (pf.map ByteFrame.value)) with
        | none => rw [hap] at haf; simp at haf
        | some a =>
          rw [hap] at haf
          simp only [Option.map_some', Option.some.injEq] at haf
          rw [← haf]
          exact ⟨rfl, rfl⟩
  · rw [recompose_packet_invalid pf le hc] at haf
    simp only [Option.some.injEq] at haf
    rw [← haf]
    exact ⟨rfl, rfl⟩

/-- C10 (witness): the invalid-checksum record for `01 02 03 04 05 00`
spans times 0 to 5, the first event's start and the last event's end. -/
theorem C10_record_span_witness :
    AnalyzerFrame.start_time
        ⟨"invalid_checksum", 0, 5, [("data", AttrValue.str "010203040500")]⟩
      = (pktBadChecksum.headD defFrame).start_time ∧
    AnalyzerFrame.end_time
        ⟨"invalid_checksum", 0, 5, [("data", AttrValue.str "010203040500")]⟩
      = (pktBadChecksum.getLastD defFrame).end_time := by
  refine C10_record_span pktBadChecksum none
    ⟨"invalid_checksum", 0, 5, [("data", AttrValue.str "010203040500")]⟩
    (by decide) ?_
  rw [recompose_packet_invalid pktBadChecksum none (by decide)]
  rfl

end LGPQRCUDS
